import Mathlib

/-!
# Verification of the GitHub MCP command-dispatch and request/response layer

A shallow embedding of the command parser, argument normalizer,
repository-reference splitter, tool dispatcher and handler routines of
`git_mcp2/mcp_server.py` and `git_mcp2/mcp_client.py`, together with proofs
of the testable properties of the specification.

Conventions of the embedding:
* JSON values (tool arguments and HTTP response bodies) are `JVal`.
* Python dictionaries are association lists in insertion order; key lookup
  takes the first binding, matching the unique-key invariant of `dict`.
* Python exceptions raised outside any `try:` block are `Except.error` of a
  `PyExn`; code inside a handler's `try:` block converts exceptions into the
  `❌`-prefixed error text of its `except` clause.
* The network is an oracle `net : Nat → HttpResponse`; the n-th outbound HTTP
  call of a handler invocation reads `net n`.  Each handler returns, next to
  its result, the ordered list of requests it issued.
-/

namespace GitMCP

/-- JSON values, as decoded from GitHub API bodies or carried as tool
arguments. -/
inductive JVal where
  | null
  | bool (b : Bool)
  | num (n : Int)
  | str (s : String)
  | arr (elems : List JVal)
  | obj (fields : List (String × JVal))

/-- Python truthiness (`bool(v)`) of a JSON value: `None`, `False`, `0`,
`""`, `[]` and `{}` are falsy. -/
def JVal.truthy : JVal → Bool
  | .null => false
  | .bool b => b
  | .num n => n != 0
  | .str s => s != ""
  | .arr xs => !xs.isEmpty
  | .obj fs => !fs.isEmpty

/-- Truthiness of `d.get(k)`: Python `None` (an absent key) is falsy. -/
def jOptTruthy : Option JVal → Bool
  | none => false
  | some v => v.truthy

mutual

/-- Python `str(v)` as used by f-string interpolation of JSON values. -/
def pyStr : JVal → String
  | .null => "None"
  | .bool true => "True"
  | .bool false => "False"
  | .num n => toString n
  | .str s => s
  | .arr xs => "[" ++ String.intercalate ", " (pyStrList xs) ++ "]"
  | .obj fs => "\x7b" ++ String.intercalate ", " (pyStrFields fs) ++ "\x7d"

/-- Renderings of the elements of a JSON array. -/
def pyStrList : List JVal → List String
  | [] => []
  | x :: xs => pyStr x :: pyStrList xs

/-- Renderings of the fields of a JSON object. -/
def pyStrFields : List (String × JVal) → List String
  | [] => []
  | (k, v) :: fs => (k ++ ": " ++ pyStr v) :: pyStrFields fs

end

/-- Python exception classes that the embedded code can raise. -/
inductive PyExn where
  | valueError (msg : String)
  | keyError (key : String)
  | attributeError (msg : String)
  | typeError (msg : String)

/-- `str(e)` for an exception, as interpolated into `❌ {str(e)}` texts. -/
def PyExn.message : PyExn → String
  | .valueError msg => msg
  | .keyError key => key
  | .attributeError msg => msg
  | .typeError msg => msg

/-- Python type name of a JSON value, used in exception messages. -/
def JVal.pyType : JVal → String
  | .null => "NoneType"
  | .bool _ => "bool"
  | .num _ => "int"
  | .str _ => "str"
  | .arr _ => "list"
  | .obj _ => "dict"

/-- The CPython `AttributeError` message for a missing attribute. -/
def noAttr (ty attr : String) : String :=
  "'" ++ ty ++ "' object has no attribute '" ++ attr ++ "'"

/-- `v.get(k)`: `None` when the key is absent; raises `AttributeError`
when the receiver is not a dict. -/
def pyGet (v : JVal) (k : String) : Except PyExn (Option JVal) :=
  match v with
  | .obj fs => .ok (List.lookup k fs)
  | other => .error (.attributeError (noAttr other.pyType "get"))

/-- `v.get(k, dflt)`: the present value (even a falsy one) or the default. -/
def pyGetD (v : JVal) (k : String) (dflt : JVal) : Except PyExn JVal :=
  (pyGet v k).map (fun o => o.getD dflt)

/-- `v[k]` on a dict: raises `KeyError` for an absent key and `TypeError`
when the receiver is not a dict. -/
def pyIndex (v : JVal) (k : String) : Except PyExn JVal :=
  match v with
  | .obj fs =>
    match List.lookup k fs with
    | some x => .ok x
    | none => .error (.keyError k)
  | other => .error (.typeError ("'" ++ other.pyType ++ "' object is not subscriptable by str"))

/-- `v[k1][k2]`, the nested-index pattern used by several handlers. -/
def pyIndex2 (v : JVal) (k1 k2 : String) : Except PyExn JVal :=
  match pyIndex v k1 with
  | .ok inner => pyIndex inner k2
  | .error e => .error e

/-- Whether `needle` occurs at the start of `hay`. -/
def chMatchesAt : List Char → List Char → Bool
  | [], _ => true
  | _ :: _, [] => false
  | n :: ns, h :: hs => n == h && chMatchesAt ns hs

/-- Substring search over character lists. -/
def chContains (needle : List Char) : List Char → Bool
  | [] => chMatchesAt needle []
  | h :: hs => chMatchesAt needle (h :: hs) || chContains needle hs

/-- Python `sub in text` for strings: substring search. -/
def pyInStr (needle hay : String) : Bool :=
  chContains needle.data hay.data

/-- `text.replace("❌ ", "")` specialised to the error marker: every
occurrence of the marker **plus one trailing space** is removed, left to
right; a marker not followed by a space is kept. -/
def stripMarkerSpace : List Char → List Char
  | '❌' :: ' ' :: rest => stripMarkerSpace rest
  | c :: rest => c :: stripMarkerSpace rest
  | [] => []

/-- `text.replace("❌ ", "")` on strings. -/
def pyReplaceMarker (t : String) : String :=
  String.mk (stripMarkerSpace t.data)

/-- `str.lower()` on the ASCII command words of the parser. -/
def pyLower (s : String) : String :=
  String.mk (s.data.map Char.toLower)

/-- `str.strip()`: remove leading and trailing whitespace. -/
def pyStrip (s : String) : String :=
  String.mk (((s.data.dropWhile Char.isWhitespace).reverse.dropWhile
    Char.isWhitespace).reverse)

/-- Truthiness of the `GITHUB_TOKEN` environment value: unset or empty means
no credential is configured. -/
def tokenTruthy : Option String → Bool
  | none => false
  | some s => s != ""

/-- Truthiness of an optional string (an owner or repo part): Python `None`
and `""` are both falsy. -/
def strOptTruthy : Option String → Bool
  | none => false
  | some s => s != ""

/-! ## Repository-reference splitter (`_parse_repo_string`) -/

/-- Python `str.split(sep)` for a one-character separator, on the character
list of the string: always returns `count of sep` + 1 chunks. -/
def splitChar (c : Char) : List Char → List (List Char)
  | [] => [[]]
  | x :: xs =>
    if x = c then [] :: splitChar c xs
    else
      match splitChar c xs with
      | ys :: rest => (x :: ys) :: rest
      | [] => [[x]]

/-- `_parse_repo_string` of `git_mcp2/mcp_server.py` (identical in
`git_mcp1/backend/github_server.py`): empty input gives `(None, None)`;
a two-part split gives the parts; anything else gives
`(None, original_string)`. -/
def parseRepoString (s : String) : Option String × Option String :=
  if s = "" then (none, none)
  else
    match (splitChar '/' s.data).map String.mk with
    | [a, b] => (some a, some b)
    | _ => (none, some s)

/-- `_parse_repo_string(arguments.get("repo"))`: the handlers pass the raw
argument value; a falsy value hits the `if not repo_str` branch, and a truthy
non-string raises `AttributeError` at `.split` (outside any `try:`). -/
def parseRepoJ : Option JVal → Except PyExn (Option String × Option String)
  | none => .ok (none, none)
  | some v =>
    if !v.truthy then .ok (none, none)
    else
      match v with
      | .str s => .ok (parseRepoString s)
      | other => .error (.attributeError (noAttr other.pyType "split"))

/-! ## Remote-call model -/

/-- HTTP verbs used by the handlers. -/
inductive Method where
  | get
  | post
  | patch
  | put

/-- One outbound HTTP request: the verb, the URL, the query parameters and
the JSON body (for mutating calls). -/
structure Request where
  method : Method
  url : String
  params : List (String × JVal)
  body : Option JVal

/-- One HTTP response: the status code and the decoded JSON body. -/
structure HttpResponse where
  status : Nat
  body : JVal

/-- Result of one handler invocation: the returned text segments (or the
exception it raised outside any `try:` block), together with the ordered
list of outbound requests it issued. -/
abbrev ToolOutcome := Except PyExn (List String) × List Request

/-- `arguments.get(k)` once the arguments are known to be a dict. -/
def argGet (m : List (String × JVal)) (k : String) : Option JVal :=
  List.lookup k m

/-- `arguments.get(k, dflt)` on a dict. -/
def argGetD (m : List (String × JVal)) (k : String) (dflt : JVal) : JVal :=
  (List.lookup k m).getD dflt

/-- Python `x or dflt` applied to a `d.get(k)` result. -/
def pyOr (o : Option JVal) (dflt : JVal) : JVal :=
  match o with
  | some v => if v.truthy then v else dflt
  | none => dflt

/-- A handler's `except Exception as e` clause: exceptions raised inside the
`try:` block become the single `❌ {str(e)}` text segment. -/
def tryExcept (x : Except PyExn (List String)) : List String :=
  match x with
  | .ok out => out
  | .error e => ["❌ " ++ e.message]

/-- The non-200 branch shared by the handlers:
`response.json().get("message", str(response.status_code))` rendered as a
single `❌`-prefixed segment (an `AttributeError` on a non-dict body is
caught by the handler's `except` clause). -/
def statusErrorBody (resp : HttpResponse) : Except PyExn (List String) :=
  (pyGetD resp.body "message" (.str (toString resp.status))).map
    (fun err => ["❌ " ++ pyStr err])

/-- Effectful map over a list in the `Except` monad, the loop shape of the
listing formatters: the first exception aborts the whole loop. -/
def exceptMap (f : JVal → Except PyExn String) : List JVal → Except PyExn (List String)
  | [] => .ok []
  | x :: xs =>
    match f x with
    | .error e => .error e
    | .ok y =>
      match exceptMap f xs with
      | .error e => .error e
      | .ok ys => .ok (y :: ys)

/-- The `AttributeError` raised by the first `.get` on non-dict arguments,
before any network activity (this line sits outside the handler `try:`). -/
def argsNotDict (v : JVal) : ToolOutcome :=
  (.error (.attributeError (noAttr v.pyType "get")), [])

/-! ## Repository tools -/

/-- Success branch of `list_repositories`: one block per repository,
`full_name (visibility) - ⭐ stars - description`. -/
def formatRepoEntry (repo : JVal) : Except PyExn String := do
  let fullName ← pyIndex repo "full_name"
  let vis ← pyGetD repo "visibility" (.str "public")
  let stars ← pyGetD repo "stargazers_count" (.num 0)
  let descO ← pyGet repo "description"
  return pyStr fullName ++ " (" ++ pyStr vis ++ ") - ⭐ " ++ pyStr stars ++ " - " ++
    pyStr (pyOr descO (.str "No description"))

/-- The `try:` block of `list_repositories`, given the response. -/
def listRepositoriesBody (resp : HttpResponse) : Except PyExn (List String) :=
  if resp.status ≠ 200 then
    (pyGetD resp.body "message" (.str ("Error: " ++ toString resp.status))).map
      (fun err => ["❌ " ++ pyStr err])
  else if !resp.body.truthy then .ok ["No repositories found"]
  else
    match resp.body with
    | .arr repos => (exceptMap formatRepoEntry repos).map
        (fun blocks => [String.intercalate "\n\n" blocks])
    | other => .error (.typeError ("'" ++ other.pyType ++ "' object is not iterable"))

/-- `list_repositories`: list all public repositories of a username. -/
def list_repositories (_token : Option String) (args : JVal)
    (net : Nat → HttpResponse) : ToolOutcome :=
  match args with
  | .obj m =>
    let username := argGet m "username"
    if !jOptTruthy username then (.ok ["❌ Missing username parameter"], [])
    else
      let req : Request :=
        ⟨.get, "https://api.github.com/users/" ++ pyStr (username.getD .null) ++ "/repos",
          [("per_page", .num 100)], none⟩
      (.ok (tryExcept (listRepositoriesBody (net 0))), [req])
  | other => argsNotDict other

/-- The fixed multi-line summary of `get_repo_details`. -/
def repoDetailsText (m : List (String × JVal)) : String :=
  "Repository: " ++ pyStr (argGetD m "full_name" .null) ++ "\n" ++
  "Description: " ++ pyStr (pyOr (argGet m "description") (.str "No description")) ++ "\n" ++
  "Private: " ++ pyStr (argGetD m "private" .null) ++ "\n" ++
  "URL: " ++ pyStr (argGetD m "html_url" .null) ++ "\n" ++
  "Stars: ⭐ " ++ pyStr (argGetD m "stargazers_count" .null) ++ "\n" ++
  "Forks: 🔱 " ++ pyStr (argGetD m "forks_count" .null) ++ "\n" ++
  "Open Issues: " ++ pyStr (argGetD m "open_issues_count" .null) ++ "\n" ++
  "Language: " ++ pyStr (pyOr (argGet m "language") (.str "N/A")) ++ "\n" ++
  "Created: " ++ pyStr (argGetD m "created_at" .null) ++ "\n" ++
  "Updated: " ++ pyStr (argGetD m "updated_at" .null) ++ "\n" ++
  "Default Branch: " ++ pyStr (argGetD m "default_branch" .null)

/-- The `try:` block of `get_repo_details`. -/
def getRepoDetailsBody (resp : HttpResponse) : Except PyExn (List String) :=
  if resp.status ≠ 200 then statusErrorBody resp
  else
    match resp.body with
    | .obj m => .ok [repoDetailsText m]
    | other => .error (.attributeError (noAttr other.pyType "get"))

/-- `get_repo_details`: detailed information for one `owner/repo`. -/
def get_repo_details (_token : Option String) (args : JVal)
    (net : Nat → HttpResponse) : ToolOutcome :=
  match args with
  | .obj m =>
    match parseRepoJ (argGet m "repo") with
    | .error e => (.error e, [])
    | .ok (owner, repoName) =>
      if !strOptTruthy owner || !strOptTruthy repoName then
        (.ok ["❌ Invalid repo format. Use 'owner/repo'"], [])
      else
        let req : Request :=
          ⟨.get, "https://api.github.com/repos/" ++ owner.getD "" ++ "/" ++ repoName.getD "",
            [], none⟩
        (.ok (tryExcept (getRepoDetailsBody (net 0))), [req])
  | other => argsNotDict other

/-- Per-item line of `search_repositories`:
`full_name - ⭐ stars - description`. -/
def formatSearchRepoEntry (repo : JVal) : Except PyExn String := do
  let fullName ← pyIndex repo "full_name"
  let stars ← pyIndex repo "stargazers_count"
  let descO ← pyGet repo "description"
  return pyStr fullName ++ " - ⭐ " ++ pyStr stars ++ " - " ++
    pyStr (pyOr descO (.str "No description"))

/-- The `try:` block of `search_repositories`: note that there is no
zero-item early return — an empty `items` list still yields the
`Found {total} repositories (showing 0):` header. -/
def searchRepositoriesBody (resp : HttpResponse) : Except PyExn (List String) :=
  if resp.status ≠ 200 then statusErrorBody resp
  else do
    let items ← pyGetD resp.body "items" (.arr [])
    match items with
    | .arr xs => do
      let results ← exceptMap formatSearchRepoEntry xs
      let total ← pyGetD resp.body "total_count" (.num 0)
      return ["Found " ++ pyStr total ++ " repositories (showing " ++
        toString results.length ++ "):\n\n" ++ String.intercalate "\n" results]
    | other => .error (.typeError ("'" ++ other.pyType ++ "' object is not iterable"))

/-- `search_repositories`: repository search with optional sort/order. -/
def search_repositories (_token : Option String) (args : JVal)
    (net : Nat → HttpResponse) : ToolOutcome :=
  match args with
  | .obj m =>
    let query := argGet m "query"
    if !jOptTruthy query then (.ok ["❌ Missing query parameter"], [])
    else
      let params := [("q", query.getD .null), ("per_page", argGetD m "per_page" (.num 30))]
      let params := if jOptTruthy (argGet m "sort")
        then params ++ [("sort", (argGet m "sort").getD .null)] else params
      let params := if jOptTruthy (argGet m "order")
        then params ++ [("order", (argGet m "order").getD .null)] else params
      let req : Request := ⟨.get, "https://api.github.com/search/repositories", params, none⟩
      (.ok (tryExcept (searchRepositoriesBody (net 0))), [req])
  | other => argsNotDict other

/-- The `try:` block of `create_repository`. -/
def createRepositoryBody (resp : HttpResponse) : Except PyExn (List String) :=
  if resp.status ≠ 200 ∧ resp.status ≠ 201 then statusErrorBody resp
  else do
    let url ← pyIndex resp.body "html_url"
    return ["✅ Repository created: " ++ pyStr url]

/-- `create_repository`: create a repository for the authenticated user;
requires a configured token before any network call. -/
def create_repository (token : Option String) (args : JVal)
    (net : Nat → HttpResponse) : ToolOutcome :=
  if !tokenTruthy token then
    (.ok ["❌ GitHub token required for this operation"], [])
  else
    match args with
    | .obj m =>
      let repoName := argGet m "name"
      if !jOptTruthy repoName then (.ok ["❌ Missing repository name"], [])
      else
        let data : JVal := .obj
          [("name", repoName.getD .null),
           ("description", argGetD m "description" (.str "")),
           ("private", argGetD m "private" (.bool false)),
           ("auto_init", argGetD m "auto_init" (.bool true))]
        let req : Request := ⟨.post, "https://api.github.com/user/repos", [], some data⟩
        (.ok (tryExcept (createRepositoryBody (net 0))), [req])
    | other => argsNotDict other

/-- The `try:` block of `fork_repository` (success statuses 200 and 202). -/
def forkRepositoryBody (resp : HttpResponse) : Except PyExn (List String) :=
  if resp.status ≠ 200 ∧ resp.status ≠ 202 then statusErrorBody resp
  else do
    let url ← pyIndex resp.body "html_url"
    return ["✅ Repository forked: " ++ pyStr url]

/-- `fork_repository`: fork `owner/repo`; requires a configured token. -/
def fork_repository (token : Option String) (args : JVal)
    (net : Nat → HttpResponse) : ToolOutcome :=
  if !tokenTruthy token then
    (.ok ["❌ GitHub token required for this operation"], [])
  else
    match args with
    | .obj m =>
      match parseRepoJ (argGet m "repo") with
      | .error e => (.error e, [])
      | .ok (owner, repoName) =>
        if !strOptTruthy owner || !strOptTruthy repoName then
          (.ok ["❌ Invalid repo format. Use 'owner/repo'"], [])
        else
          let req : Request :=
            ⟨.post, "https://api.github.com/repos/" ++ owner.getD "" ++ "/" ++
              repoName.getD "" ++ "/forks", [], none⟩
          (.ok (tryExcept (forkRepositoryBody (net 0))), [req])
    | other => argsNotDict other

/-! ## Issue tools -/

/-- Python `k in v` membership: key test on dicts, substring test on strings,
element test on lists. -/
def pyHasKey (v : JVal) (k : String) : Except PyExn Bool :=
  match v with
  | .obj fs => .ok ((List.lookup k fs).isSome)
  | .str s => .ok (pyInStr k s)
  | .arr xs => .ok (xs.any fun e => match e with | .str s => s == k | _ => false)
  | other => .error (.typeError ("argument of type '" ++ other.pyType ++ "' is not iterable"))

/-- One issue block:
`#number - title`, its state and label line, and its URL. -/
def formatIssueEntry (issue : JVal) : Except PyExn String := do
  let labelsV ← pyGetD issue "labels" (.arr [])
  let labelNames ←
    match labelsV with
    | .arr ls => exceptMap (fun l => do
        let nm ← pyIndex l "name"
        match nm with
        | .str s => pure s
        | other => .error (.typeError
            ("sequence item: expected str instance, '" ++ other.pyType ++ "' found"))) ls
    | other => .error (.typeError ("'" ++ other.pyType ++ "' object is not iterable"))
  let labels := String.intercalate ", " labelNames
  let number ← pyIndex issue "number"
  let title ← pyIndex issue "title"
  let state ← pyIndex issue "state"
  let url ← pyIndex issue "html_url"
  return "#" ++ pyStr number ++ " - " ++ pyStr title ++ "\n  State: " ++ pyStr state ++
    " | Labels: " ++ (if labels != "" then labels else "None") ++ "\n  URL: " ++ pyStr url

/-- The issue loop of `list_issues`: entries carrying a `pull_request`
back-reference are skipped, all others are formatted in order. -/
def formatIssuesLoop : List JVal → Except PyExn (List String)
  | [] => .ok []
  | issue :: rest =>
    match pyHasKey issue "pull_request" with
    | .error e => .error e
    | .ok true => formatIssuesLoop rest
    | .ok false =>
      match formatIssueEntry issue with
      | .error e => .error e
      | .ok s =>
        match formatIssuesLoop rest with
        | .error e => .error e
        | .ok ss => .ok (s :: ss)

/-- The `try:` block of `list_issues`. -/
def listIssuesBody (resp : HttpResponse) : Except PyExn (List String) :=
  if resp.status ≠ 200 then statusErrorBody resp
  else if !resp.body.truthy then .ok ["No issues found"]
  else
    match resp.body with
    | .arr issues => (formatIssuesLoop issues).map
        (fun rs => [String.intercalate "\n\n" rs])
    | other => .error (.typeError ("'" ++ other.pyType ++ "' object is not iterable"))

/-- `list_issues`: list a repository's issues, filtering out entries that
are actually pull requests. -/
def list_issues (_token : Option String) (args : JVal)
    (net : Nat → HttpResponse) : ToolOutcome :=
  match args with
  | .obj m =>
    match parseRepoJ (argGet m "repo") with
    | .error e => (.error e, [])
    | .ok (owner, repoName) =>
      if !strOptTruthy owner || !strOptTruthy repoName then
        (.ok ["❌ Invalid repo format. Use 'owner/repo'"], [])
      else
        let params := [("state", argGetD m "state" (.str "open")),
                       ("per_page", argGetD m "per_page" (.num 30))]
        let params := if jOptTruthy (argGet m "labels")
          then params ++ [("labels", (argGet m "labels").getD .null)] else params
        let req : Request :=
          ⟨.get, "https://api.github.com/repos/" ++ owner.getD "" ++ "/" ++
            repoName.getD "" ++ "/issues", params, none⟩
        (.ok (tryExcept (listIssuesBody (net 0))), [req])
  | other => argsNotDict other

/-- The `try:` block of `create_issue`. -/
def createIssueBody (resp : HttpResponse) : Except PyExn (List String) :=
  if resp.status ≠ 200 ∧ resp.status ≠ 201 then statusErrorBody resp
  else do
    let number ← pyIndex resp.body "number"
    let url ← pyIndex resp.body "html_url"
    return ["✅ Issue created: #" ++ pyStr number ++ " - " ++ pyStr url]

/-- `create_issue`: open a new issue; requires a configured token. -/
def create_issue (token : Option String) (args : JVal)
    (net : Nat → HttpResponse) : ToolOutcome :=
  if !tokenTruthy token then
    (.ok ["❌ GitHub token required for this operation"], [])
  else
    match args with
    | .obj m =>
      match parseRepoJ (argGet m "repo") with
      | .error e => (.error e, [])
      | .ok (owner, repoName) =>
        if !strOptTruthy owner || !strOptTruthy repoName then
          (.ok ["❌ Invalid repo format. Use 'owner/repo'"], [])
        else
          let title := argGet m "title"
          if !jOptTruthy title then (.ok ["❌ Missing title parameter"], [])
          else
            let data := [("title", title.getD .null), ("body", argGetD m "body" (.str ""))]
            let data := if jOptTruthy (argGet m "labels")
              then data ++ [("labels", (argGet m "labels").getD .null)] else data
            let data := if jOptTruthy (argGet m "assignees")
              then data ++ [("assignees", (argGet m "assignees").getD .null)] else data
            let req : Request :=
              ⟨.post, "https://api.github.com/repos/" ++ owner.getD "" ++ "/" ++
                repoName.getD "" ++ "/issues", [], some (.obj data)⟩
            (.ok (tryExcept (createIssueBody (net 0))), [req])
    | other => argsNotDict other

/-- The `try:` block of `update_issue`. -/
def updateIssueBody (resp : HttpResponse) : Except PyExn (List String) :=
  if resp.status ≠ 200 then statusErrorBody resp
  else do
    let number ← pyIndex resp.body "number"
    let url ← pyIndex resp.body "html_url"
    return ["✅ Issue updated: #" ++ pyStr number ++ " - " ++ pyStr url]

/-- `update_issue`: patch an existing issue; requires a configured token. -/
def update_issue (token : Option String) (args : JVal)
    (net : Nat → HttpResponse) : ToolOutcome :=
  if !tokenTruthy token then
    (.ok ["❌ GitHub token required for this operation"], [])
  else
    match args with
    | .obj m =>
      match parseRepoJ (argGet m "repo") with
      | .error e => (.error e, [])
      | .ok (owner, repoName) =>
        let issueNumber := argGet m "issue_number"
        if !strOptTruthy owner || !strOptTruthy repoName then
          (.ok ["❌ Invalid repo format. Use 'owner/repo'"], [])
        else if !jOptTruthy issueNumber then
          (.ok ["❌ Missing issue_number parameter"], [])
        else
          let data : List (String × JVal) := []
          let data := if jOptTruthy (argGet m "title")
            then data ++ [("title", (argGet m "title").getD .null)] else data
          let data := if jOptTruthy (argGet m "body")
            then data ++ [("body", (argGet m "body").getD .null)] else data
          let data := if jOptTruthy (argGet m "state")
            then data ++ [("state", (argGet m "state").getD .null)] else data
          let data := if jOptTruthy (argGet m "labels")
            then data ++ [("labels", (argGet m "labels").getD .null)] else data
          let req : Request :=
            ⟨.patch, "https://api.github.com/repos/" ++ owner.getD "" ++ "/" ++
              repoName.getD "" ++ "/issues/" ++ pyStr (issueNumber.getD .null),
              [], some (.obj data)⟩
          (.ok (tryExcept (updateIssueBody (net 0))), [req])
    | other => argsNotDict other

/-! ## Pull-request tools -/

/-- One pull-request block of `list_pull_requests`. -/
def formatPullEntry (pr : JVal) : Except PyExn String := do
  let number ← pyIndex pr "number"
  let title ← pyIndex pr "title"
  let headRef ← pyIndex2 pr "head" "ref"
  let baseRef ← pyIndex2 pr "base" "ref"
  let state ← pyIndex pr "state"
  let draft ← pyGetD pr "draft" (.bool false)
  let url ← pyIndex pr "html_url"
  return "#" ++ pyStr number ++ " - " ++ pyStr title ++ "\n  " ++ pyStr headRef ++
    " → " ++ pyStr baseRef ++ "\n  State: " ++ pyStr state ++ " | Draft: " ++
    pyStr draft ++ "\n  URL: " ++ pyStr url

/-- The `try:` block of `list_pull_requests`. -/
def listPullRequestsBody (resp : HttpResponse) : Except PyExn (List String) :=
  if resp.status ≠ 200 then statusErrorBody resp
  else if !resp.body.truthy then .ok ["No pull requests found"]
  else
    match resp.body with
    | .arr prs => (exceptMap formatPullEntry prs).map
        (fun rs => [String.intercalate "\n\n" rs])
    | other => .error (.typeError ("'" ++ other.pyType ++ "' object is not iterable"))

/-- `list_pull_requests`: list a repository's pull requests. -/
def list_pull_requests (_token : Option String) (args : JVal)
    (net : Nat → HttpResponse) : ToolOutcome :=
  match args with
  | .obj m =>
    match parseRepoJ (argGet m "repo") with
    | .error e => (.error e, [])
    | .ok (owner, repoName) =>
      if !strOptTruthy owner || !strOptTruthy repoName then
        (.ok ["❌ Invalid repo format. Use 'owner/repo'"], [])
      else
        let params := [("state", argGetD m "state" (.str "open")),
                       ("per_page", argGetD m "per_page" (.num 30))]
        let req : Request :=
          ⟨.get, "https://api.github.com/repos/" ++ owner.getD "" ++ "/" ++
            repoName.getD "" ++ "/pulls", params, none⟩
        (.ok (tryExcept (listPullRequestsBody (net 0))), [req])
  | other => argsNotDict other

/-- The `try:` block of `create_pull_request`. -/
def createPullRequestBody (resp : HttpResponse) : Except PyExn (List String) :=
  if resp.status ≠ 200 ∧ resp.status ≠ 201 then statusErrorBody resp
  else do
    let number ← pyIndex resp.body "number"
    let url ← pyIndex resp.body "html_url"
    return ["✅ Pull request created: #" ++ pyStr number ++ " - " ++ pyStr url]

/-- `create_pull_request`: open a pull request; requires a configured token
and the `title`, `head` and `base` fields, checked in that order. -/
def create_pull_request (token : Option String) (args : JVal)
    (net : Nat → HttpResponse) : ToolOutcome :=
  if !tokenTruthy token then
    (.ok ["❌ GitHub token required for this operation"], [])
  else
    match args with
    | .obj m =>
      match parseRepoJ (argGet m "repo") with
      | .error e => (.error e, [])
      | .ok (owner, repoName) =>
        if !strOptTruthy owner || !strOptTruthy repoName then
          (.ok ["❌ Invalid repo format. Use 'owner/repo'"], [])
        else if !jOptTruthy (argGet m "title") then
          (.ok ["❌ Missing title parameter"], [])
        else if !jOptTruthy (argGet m "head") then
          (.ok ["❌ Missing head parameter"], [])
        else if !jOptTruthy (argGet m "base") then
          (.ok ["❌ Missing base parameter"], [])
        else
          let data : JVal := .obj
            [("title", argGetD m "title" .null),
             ("head", argGetD m "head" .null),
             ("base", argGetD m "base" .null),
             ("body", argGetD m "body" (.str "")),
             ("draft", argGetD m "draft" (.bool false))]
          let req : Request :=
            ⟨.post, "https://api.github.com/repos/" ++ owner.getD "" ++ "/" ++
              repoName.getD "" ++ "/pulls", [], some data⟩
          (.ok (tryExcept (createPullRequestBody (net 0))), [req])
    | other => argsNotDict other

/-! ## File and content tools (base64 transport encoding) -/

/-- Position of a character in the standard base64 alphabet. -/
def b64Index (c : Char) : Option Nat :=
  if 'A' ≤ c ∧ c ≤ 'Z' then some (c.toNat - 'A'.toNat)
  else if 'a' ≤ c ∧ c ≤ 'z' then some (c.toNat - 'a'.toNat + 26)
  else if '0' ≤ c ∧ c ≤ '9' then some (c.toNat - '0'.toNat + 52)
  else if c = '+' then some 62
  else if c = '/' then some 63
  else none

/-- The standard base64 alphabet. -/
def b64Alphabet : String :=
  "ABCDEFGHIJKLMNOPQRSTUVWXYZabcdefghijklmnopqrstuvwxyz0123456789+/"

/-- Character of a sextet in the standard base64 alphabet. -/
def b64Char (n : Nat) : Char := b64Alphabet.data.getD n 'A'

/-- Pack base64 sextets into bytes: four sextets give three bytes, with the
two- and three-sextet tails that `=` padding leaves behind; a single
leftover sextet is invalid. -/
def b64Bytes : List Nat → Except PyExn (List Nat)
  | [] => .ok []
  | [_] => .error (.valueError "Invalid base64-encoded string")
  | [a, b] => .ok [(a * 4 + b / 16) % 256]
  | [a, b, c] => .ok [(a * 4 + b / 16) % 256, (b % 16 * 16 + c / 4) % 256]
  | a :: b :: c :: d :: rest =>
    match b64Bytes rest with
    | .error e => .error e
    | .ok tail => .ok ((a * 4 + b / 16) % 256 :: (b % 16 * 16 + c / 4) % 256 ::
        (c % 4 * 64 + d) % 256 :: tail)

/-- `base64.b64decode`: characters outside the alphabet (including the `=`
padding and newlines) are discarded, then the sextets are packed into
bytes. -/
def b64decode (s : String) : Except PyExn (List Nat) :=
  b64Bytes (s.data.filterMap b64Index)

/-- `base64.b64encode(bytes).decode()`: three bytes to four characters, with
`=` padding on the tail. -/
def b64encode : List Nat → String
  | [] => ""
  | [a] => String.mk [b64Char (a / 4), b64Char (a % 4 * 16), '=', '=']
  | [a, b] => String.mk [b64Char (a / 4), b64Char (a % 4 * 16 + b / 16),
      b64Char (b % 16 * 4), '=']
  | a :: b :: c :: rest =>
    String.mk [b64Char (a / 4), b64Char (a % 4 * 16 + b / 16),
      b64Char (b % 16 * 4 + c / 64), b64Char (c % 64)] ++ b64encode rest

/-- `content.encode()`: the UTF-8 bytes of a Python string. -/
def utf8Encode (s : String) : List Nat :=
  s.toUTF8.toList.map (fun b => b.toNat)

/-- `bytes.decode("utf-8")`. -/
def utf8Decode (bytes : List Nat) : Except PyExn String :=
  match String.fromUTF8? (ByteArray.mk (Array.mk (bytes.map (fun n => UInt8.ofNat n)))) with
  | some s => .ok s
  | none => .error (.valueError "invalid utf-8 sequence")

/-- The `try:` block of `get_file_contents`: decode the base64 `content`
field and render the file summary. -/
def getFileContentsBody (pathV : JVal) (resp : HttpResponse) : Except PyExn (List String) :=
  if resp.status ≠ 200 then statusErrorBody resp
  else do
    let contentV ← pyIndex resp.body "content"
    let contentStr ←
      match contentV with
      | .str s => pure s
      | other => .error (.typeError
          ("argument should be a bytes-like object or ASCII string, not '" ++
            other.pyType ++ "'"))
    let bytes ← b64decode contentStr
    let content ← utf8Decode bytes
    let size ← pyIndex resp.body "size"
    let sha ← pyIndex resp.body "sha"
    return ["File: " ++ pyStr pathV ++ "\nSize: " ++ pyStr size ++ " bytes\nSHA: " ++
      pyStr sha ++ "\n\n" ++ content]

/-- `get_file_contents`: fetch and decode one file. -/
def get_file_contents (_token : Option String) (args : JVal)
    (net : Nat → HttpResponse) : ToolOutcome :=
  match args with
  | .obj m =>
    match parseRepoJ (argGet m "repo") with
    | .error e => (.error e, [])
    | .ok (owner, repoName) =>
      let path := argGet m "path"
      if !strOptTruthy owner || !strOptTruthy repoName then
        (.ok ["❌ Invalid repo format. Use 'owner/repo'"], [])
      else if !jOptTruthy path then
        (.ok ["❌ Missing path parameter"], [])
      else
        let params := if jOptTruthy (argGet m "branch")
          then [("ref", (argGet m "branch").getD .null)] else []
        let req : Request :=
          ⟨.get, "https://api.github.com/repos/" ++ owner.getD "" ++ "/" ++
            repoName.getD "" ++ "/contents/" ++ pyStr (path.getD .null), params, none⟩
        (.ok (tryExcept (getFileContentsBody (path.getD .null) (net 0))), [req])
  | other => argsNotDict other

/-- The `try:` block of `create_or_update_file`; `updated` is chosen over
`created` exactly when a `sha` argument was supplied. -/
def createOrUpdateFileBody (updated : Bool) (resp : HttpResponse) :
    Except PyExn (List String) :=
  if resp.status ≠ 200 ∧ resp.status ≠ 201 then statusErrorBody resp
  else do
    let url ← pyIndex2 resp.body "content" "html_url"
    return ["✅ File " ++ (if updated then "updated" else "created") ++ ": " ++ pyStr url]

/-- `create_or_update_file`: write one file (base64-encoded content);
requires a configured token. -/
def create_or_update_file (token : Option String) (args : JVal)
    (net : Nat → HttpResponse) : ToolOutcome :=
  if !tokenTruthy token then
    (.ok ["❌ GitHub token required for this operation"], [])
  else
    match args with
    | .obj m =>
      match parseRepoJ (argGet m "repo") with
      | .error e => (.error e, [])
      | .ok (owner, repoName) =>
        let path := argGet m "path"
        let content := argGet m "content"
        let message := argGet m "message"
        let branch := argGet m "branch"
        if !strOptTruthy owner || !strOptTruthy repoName then
          (.ok ["❌ Invalid repo format. Use 'owner/repo'"], [])
        else if !(jOptTruthy path && jOptTruthy content &&
                  jOptTruthy message && jOptTruthy branch) then
          (.ok ["❌ Missing required parameters"], [])
        else
          match content.getD .null with
          | .str contentStr =>
            let encoded := b64encode (utf8Encode contentStr)
            let data := [("message", message.getD .null), ("content", JVal.str encoded),
                         ("branch", branch.getD .null)]
            let data := if jOptTruthy (argGet m "sha")
              then data ++ [("sha", (argGet m "sha").getD .null)] else data
            let req : Request :=
              ⟨.put, "https://api.github.com/repos/" ++ owner.getD "" ++ "/" ++
                repoName.getD "" ++ "/contents/" ++ pyStr (path.getD .null),
                [], some (.obj data)⟩
            (.ok (tryExcept (createOrUpdateFileBody (jOptTruthy (argGet m "sha")) (net 0))),
              [req])
          | other => (.error (.attributeError (noAttr other.pyType "encode")), [])
    | other => argsNotDict other

/-! ## Branch tools -/

/-- One line of `list_branches`: a lock marker for protected branches, the
name, and the first seven characters of the head commit SHA. -/
def formatBranchEntry (branch : JVal) : Except PyExn String := do
  let protectedO ← pyGet branch "protected"
  let lock := if jOptTruthy protectedO then "🔒" else ""
  let nameV ← pyIndex branch "name"
  let shaV ← pyIndex2 branch "commit" "sha"
  let shaPrefix ←
    match shaV with
    | .str s => pure (JVal.str (s.take 7))
    | .arr xs => pure (JVal.arr (xs.take 7))
    | other => .error (.typeError ("'" ++ other.pyType ++ "' object is not subscriptable"))
  return lock ++ " " ++ pyStr nameV ++ " (SHA: " ++ pyStr shaPrefix ++ ")"

/-- The `try:` block of `list_branches` (one line per branch, newline-joined). -/
def listBranchesBody (resp : HttpResponse) : Except PyExn (List String) :=
  if resp.status ≠ 200 then statusErrorBody resp
  else if !resp.body.truthy then .ok ["No branches found"]
  else
    match resp.body with
    | .arr branches => (exceptMap formatBranchEntry branches).map
        (fun rs => [String.intercalate "\n" rs])
    | other => .error (.typeError ("'" ++ other.pyType ++ "' object is not iterable"))

/-- `list_branches`: list a repository's branches. -/
def list_branches (_token : Option String) (args : JVal)
    (net : Nat → HttpResponse) : ToolOutcome :=
  match args with
  | .obj m =>
    match parseRepoJ (argGet m "repo") with
    | .error e => (.error e, [])
    | .ok (owner, repoName) =>
      if !strOptTruthy owner || !strOptTruthy repoName then
        (.ok ["❌ Invalid repo format. Use 'owner/repo'"], [])
      else
        let req : Request :=
          ⟨.get, "https://api.github.com/repos/" ++ owner.getD "" ++ "/" ++
            repoName.getD "" ++ "/branches",
            [("per_page", argGetD m "per_page" (.num 30))], none⟩
        (.ok (tryExcept (listBranchesBody (net 0))), [req])
  | other => argsNotDict other

/-- Step 1 of `create_branch`: the `git/ref/heads/{from_branch}` lookup. -/
def refLookupRequest (owner repoName : String) (fromBranch : JVal) : Request :=
  ⟨.get, "https://api.github.com/repos/" ++ owner ++ "/" ++ repoName ++
    "/git/ref/heads/" ++ pyStr fromBranch, [], none⟩

/-- Step 2 of `create_branch`: the `git/refs` creation whose body carries the
SHA resolved by step 1. -/
def refCreateRequest (owner repoName : String) (branch sha : JVal) : Request :=
  ⟨.post, "https://api.github.com/repos/" ++ owner ++ "/" ++ repoName ++ "/git/refs", [],
    some (.obj [("ref", .str ("refs/heads/" ++ pyStr branch)), ("sha", sha)])⟩

/-- `create_branch`: resolve the source branch's commit reference, then
create the new reference from that exact commit SHA; requires a configured
token; the second call is issued only when the first returns 200. -/
def create_branch (token : Option String) (args : JVal)
    (net : Nat → HttpResponse) : ToolOutcome :=
  if !tokenTruthy token then
    (.ok ["❌ GitHub token required for this operation"], [])
  else
    match args with
    | .obj m =>
      match parseRepoJ (argGet m "repo") with
      | .error e => (.error e, [])
      | .ok (owner, repoName) =>
        let branch := argGet m "branch"
        if !strOptTruthy owner || !strOptTruthy repoName then
          (.ok ["❌ Invalid repo format. Use 'owner/repo'"], [])
        else if !jOptTruthy branch then
          (.ok ["❌ Missing branch parameter"], [])
        else
          let fromBranch := argGetD m "from_branch" (.str "main")
          let req1 := refLookupRequest (owner.getD "") (repoName.getD "") fromBranch
          let resp1 := net 0
          if resp1.status ≠ 200 then
            (.ok (tryExcept (statusErrorBody resp1)), [req1])
          else
            match pyIndex2 resp1.body "object" "sha" with
            | .error e => (.ok ["❌ " ++ e.message], [req1])
            | .ok sha =>
              let req2 := refCreateRequest (owner.getD "") (repoName.getD "")
                (branch.getD .null) sha
              let resp2 := net 1
              if resp2.status ≠ 200 ∧ resp2.status ≠ 201 then
                (.ok (tryExcept (statusErrorBody resp2)), [req1, req2])
              else
                (.ok ["✅ Branch '" ++ pyStr (branch.getD .null) ++ "' created from '" ++
                  pyStr fromBranch ++ "'"], [req1, req2])
    | other => argsNotDict other

/-! ## Commit, search, release and user tools -/

/-- One commit block: truncated SHA, first message line, author and date. -/
def formatCommitEntry (commit : JVal) : Except PyExn String := do
  let shaV ← pyIndex commit "sha"
  let shaPrefix ←
    match shaV with
    | .str s => pure (JVal.str (s.take 7))
    | .arr xs => pure (JVal.arr (xs.take 7))
    | other => .error (.typeError ("'" ++ other.pyType ++ "' object is not subscriptable"))
  let inner ← pyIndex commit "commit"
  let messageV ← pyIndex inner "message"
  let firstLine ←
    match messageV with
    | .str s => pure ((s.splitOn "\n").getD 0 "")
    | other => .error (.attributeError (noAttr other.pyType "split"))
  let author ← pyIndex2 inner "author" "name"
  let date ← pyIndex2 inner "author" "date"
  return pyStr shaPrefix ++ " - " ++ firstLine ++ "\n  by " ++ pyStr author ++
    " on " ++ pyStr date

/-- The `try:` block of `list_commits`. -/
def listCommitsBody (resp : HttpResponse) : Except PyExn (List String) :=
  if resp.status ≠ 200 then statusErrorBody resp
  else if !resp.body.truthy then .ok ["No commits found"]
  else
    match resp.body with
    | .arr commits => (exceptMap formatCommitEntry commits).map
        (fun rs => [String.intercalate "\n\n" rs])
    | other => .error (.typeError ("'" ++ other.pyType ++ "' object is not iterable"))

/-- `list_commits`: list a repository's commits, optionally from a branch. -/
def list_commits (_token : Option String) (args : JVal)
    (net : Nat → HttpResponse) : ToolOutcome :=
  match args with
  | .obj m =>
    match parseRepoJ (argGet m "repo") with
    | .error e => (.error e, [])
    | .ok (owner, repoName) =>
      if !strOptTruthy owner || !strOptTruthy repoName then
        (.ok ["❌ Invalid repo format. Use 'owner/repo'"], [])
      else
        let params := [("per_page", argGetD m "per_page" (.num 30))]
        let params := if jOptTruthy (argGet m "branch")
          then params ++ [("sha", (argGet m "branch").getD .null)] else params
        let req : Request :=
          ⟨.get, "https://api.github.com/repos/" ++ owner.getD "" ++ "/" ++
            repoName.getD "" ++ "/commits", params, none⟩
        (.ok (tryExcept (listCommitsBody (net 0))), [req])
  | other => argsNotDict other

/-- One code-search block: `repo_full_name/path` and the item URL. -/
def formatCodeEntry (item : JVal) : Except PyExn String := do
  let repoFullName ← pyIndex2 item "repository" "full_name"
  let path ← pyIndex item "path"
  let url ← pyIndex item "html_url"
  return pyStr repoFullName ++ "/" ++ pyStr path ++ "\n  URL: " ++ pyStr url

/-- The `try:` block of `search_code`: unlike `search_repositories`, an
empty `items` list returns the explicit `No code results found` text. -/
def searchCodeBody (resp : HttpResponse) : Except PyExn (List String) :=
  if resp.status ≠ 200 then statusErrorBody resp
  else do
    let items ← pyGetD resp.body "items" (.arr [])
    match items with
    | .arr xs =>
      if xs.isEmpty then pure ["No code results found"]
      else do
        let results ← exceptMap formatCodeEntry xs
        let total ← pyGetD resp.body "total_count" (.num 0)
        return ["Found " ++ pyStr total ++ " code results (showing " ++
          toString results.length ++ "):\n\n" ++ String.intercalate "\n\n" results]
    | other => .error (.typeError ("'" ++ other.pyType ++ "' object is not iterable"))

/-- `search_code`: code search. -/
def search_code (_token : Option String) (args : JVal)
    (net : Nat → HttpResponse) : ToolOutcome :=
  match args with
  | .obj m =>
    let query := argGet m "query"
    if !jOptTruthy query then (.ok ["❌ Missing query parameter"], [])
    else
      let req : Request :=
        ⟨.get, "https://api.github.com/search/code",
          [("q", query.getD .null), ("per_page", argGetD m "per_page" (.num 30))], none⟩
      (.ok (tryExcept (searchCodeBody (net 0))), [req])
  | other => argsNotDict other

/-- One release block: prerelease/draft markers, tag, name, date and URL. -/
def formatReleaseEntry (release : JVal) : Except PyExn String := do
  let preO ← pyGet release "prerelease"
  let draftO ← pyGet release "draft"
  let tag ← pyIndex release "tag_name"
  let nameV ← pyIndex release "name"
  let published ← pyGetD release "published_at" (.str "N/A")
  let url ← pyIndex release "html_url"
  return (if jOptTruthy preO then "🚧 " else "") ++
    (if jOptTruthy draftO then "📝 " else "") ++ pyStr tag ++ " - " ++ pyStr nameV ++
    "\n  Published: " ++ pyStr published ++ "\n  URL: " ++ pyStr url

/-- The `try:` block of `list_releases`. -/
def listReleasesBody (resp : HttpResponse) : Except PyExn (List String) :=
  if resp.status ≠ 200 then statusErrorBody resp
  else if !resp.body.truthy then .ok ["No releases found"]
  else
    match resp.body with
    | .arr releases => (exceptMap formatReleaseEntry releases).map
        (fun rs => [String.intercalate "\n\n" rs])
    | other => .error (.typeError ("'" ++ other.pyType ++ "' object is not iterable"))

/-- `list_releases`: list a repository's releases. -/
def list_releases (_token : Option String) (args : JVal)
    (net : Nat → HttpResponse) : ToolOutcome :=
  match args with
  | .obj m =>
    match parseRepoJ (argGet m "repo") with
    | .error e => (.error e, [])
    | .ok (owner, repoName) =>
      if !strOptTruthy owner || !strOptTruthy repoName then
        (.ok ["❌ Invalid repo format. Use 'owner/repo'"], [])
      else
        let req : Request :=
          ⟨.get, "https://api.github.com/repos/" ++ owner.getD "" ++ "/" ++
            repoName.getD "" ++ "/releases",
            [("per_page", argGetD m "per_page" (.num 30))], none⟩
        (.ok (tryExcept (listReleasesBody (net 0))), [req])
  | other => argsNotDict other

/-- The fixed multi-line summary of `get_user_info`. -/
def userInfoText (user : JVal) : Except PyExn String := do
  let login ← pyIndex user "login"
  let nameO ← pyGet user "name"
  let bioO ← pyGet user "bio"
  let companyO ← pyGet user "company"
  let locationO ← pyGet user "location"
  let emailO ← pyGet user "email"
  let blogO ← pyGet user "blog"
  let publicRepos ← pyIndex user "public_repos"
  let followers ← pyIndex user "followers"
  let following ← pyIndex user "following"
  let created ← pyIndex user "created_at"
  let url ← pyIndex user "html_url"
  return "Username: " ++ pyStr login ++
    "\nName: " ++ pyStr (pyOr nameO (.str "N/A")) ++
    "\nBio: " ++ pyStr (pyOr bioO (.str "N/A")) ++
    "\nCompany: " ++ pyStr (pyOr companyO (.str "N/A")) ++
    "\nLocation: " ++ pyStr (pyOr locationO (.str "N/A")) ++
    "\nEmail: " ++ pyStr (pyOr emailO (.str "N/A")) ++
    "\nBlog: " ++ pyStr (pyOr blogO (.str "N/A")) ++
    "\nPublic Repos: " ++ pyStr publicRepos ++
    "\nFollowers: " ++ pyStr followers ++
    "\nFollowing: " ++ pyStr following ++
    "\nCreated: " ++ pyStr created ++
    "\nProfile: " ++ pyStr url

/-- The `try:` block of `get_user_info`. -/
def getUserInfoBody (resp : HttpResponse) : Except PyExn (List String) :=
  if resp.status ≠ 200 then statusErrorBody resp
  else (userInfoText resp.body).map (fun info => [info])

/-- `get_user_info`: information about one user. -/
def get_user_info (_token : Option String) (args : JVal)
    (net : Nat → HttpResponse) : ToolOutcome :=
  match args with
  | .obj m =>
    let username := argGet m "username"
    if !jOptTruthy username then (.ok ["❌ Missing username parameter"], [])
    else
      let req : Request :=
        ⟨.get, "https://api.github.com/users/" ++ pyStr (username.getD .null), [], none⟩
      (.ok (tryExcept (getUserInfoBody (net 0))), [req])
  | other => argsNotDict other

/-! ## Argument normalizer and tool dispatcher -/

/-- `_extract_arguments`: a missing or empty mapping yields the empty
mapping; a mapping carrying an `"arguments"` key yields that key's value;
any other mapping is returned unchanged. -/
def extractArguments (arguments : Option (List (String × JVal))) : JVal :=
  match arguments with
  | none => .obj []
  | some m =>
    if m.isEmpty then .obj []
    else
      match List.lookup "arguments" m with
      | some v => v
      | none => .obj m

/-- The 18 tool names registered in the `handlers` dict of
`handle_tool_call`. -/
def registeredTools : List String :=
  ["list_repositories", "get_repo_details", "list_issues", "create_issue",
   "update_issue", "list_pull_requests", "create_pull_request",
   "get_file_contents", "create_or_update_file", "list_branches",
   "create_branch", "list_commits", "search_repositories", "search_code",
   "create_repository", "fork_repository", "list_releases", "get_user_info"]

/-- The `handlers` dispatch table: exact-match name lookup. -/
def getHandler (name : String) :
    Option (Option String → JVal → (Nat → HttpResponse) → ToolOutcome) :=
  if name = "list_repositories" then some list_repositories
  else if name = "get_repo_details" then some get_repo_details
  else if name = "list_issues" then some list_issues
  else if name = "create_issue" then some create_issue
  else if name = "update_issue" then some update_issue
  else if name = "list_pull_requests" then some list_pull_requests
  else if name = "create_pull_request" then some create_pull_request
  else if name = "get_file_contents" then some get_file_contents
  else if name = "create_or_update_file" then some create_or_update_file
  else if name = "list_branches" then some list_branches
  else if name = "create_branch" then some create_branch
  else if name = "list_commits" then some list_commits
  else if name = "search_repositories" then some search_repositories
  else if name = "search_code" then some search_code
  else if name = "create_repository" then some create_repository
  else if name = "fork_repository" then some fork_repository
  else if name = "list_releases" then some list_releases
  else if name = "get_user_info" then some get_user_info
  else none

/-- `handle_tool_call`: normalize the arguments, look the handler up and run
it; an unregistered name yields the single `❌ Unknown tool:` segment and no
network activity. -/
def handle_tool_call (token : Option String) (name : String)
    (arguments : Option (List (String × JVal))) (net : Nat → HttpResponse) :
    ToolOutcome :=
  let args := extractArguments arguments
  match getHandler name with
  | some h => h token args net
  | none => (.ok ["❌ Unknown tool: " ++ name], [])

/-! ## Command parser (client side) -/

/-- `int(s)` on a decimal string: strip surrounding whitespace, an optional
sign, then digits; anything else raises `ValueError`. -/
def pyInt (s : String) : Except PyExn Int :=
  let t := pyStrip s
  let signDigits : Int × List Char :=
    match t.data with
    | '-' :: rest => (-1, rest)
    | '+' :: rest => (1, rest)
    | other => (1, other)
  if signDigits.2 ≠ [] ∧ signDigits.2.all (fun c => c.isDigit) then
    .ok (signDigits.1 *
      Int.ofNat (signDigits.2.foldl (fun acc c => acc * 10 + (c.toNat - '0'.toNat)) 0))
  else
    .error (.valueError ("invalid literal for int() with base 10: '" ++ s ++ "'"))

/-- Cut a character list at every character satisfying a class. -/
def splitPred (p : Char → Bool) : List Char → List (List Char)
  | [] => [[]]
  | x :: xs =>
    if p x then [] :: splitPred p xs
    else
      match splitPred p xs with
      | ys :: rest => (x :: ys) :: rest
      | [] => [[x]]

/-- Whitespace tokenization of a command line: the behaviour of both
`shlex.split` on quote-free input and of the `query.split()` fallback
(split on whitespace runs, dropping empty chunks). -/
def tokenize (query : String) : List String :=
  ((splitPred Char.isWhitespace query.data).map String.mk).filter (fun t => t ≠ "")

/-- `parse_command` of `git_mcp2/mcp_client.py`, after tokenization: a
recognized command word with enough tokens yields the tool name and the
positional argument dict; too few tokens or an unrecognized word yield
`none` (the "no command" signal).  The unguarded `int(parts[2])` of the
`update_issue` branch can raise `ValueError`. -/
def parseCommandTokens (parts : List String) :
    Except PyExn (Option (String × List (String × JVal))) :=
  match parts with
  | [] => .ok none
  | p0 :: _ =>
    let cmd := pyLower p0
    if cmd = "list_repositories" then
      if parts.length < 2 then .ok none
      else .ok (some ("list_repositories", [("username", .str (parts.getD 1 ""))]))
    else if cmd = "get_repo_details" then
      if parts.length < 2 then .ok none
      else .ok (some ("get_repo_details", [("repo", .str (parts.getD 1 ""))]))
    else if cmd = "search_repositories" then
      if parts.length < 2 then .ok none
      else
        let args := [("query", JVal.str (parts.getD 1 ""))]
        let args := if parts.length > 2 then args ++ [("sort", JVal.str (parts.getD 2 ""))] else args
        let args := if parts.length > 3 then args ++ [("order", JVal.str (parts.getD 3 ""))] else args
        .ok (some ("search_repositories", args))
    else if cmd = "create_repository" then
      if parts.length < 2 then .ok none
      else
        let args := [("name", JVal.str (parts.getD 1 ""))]
        let args := if parts.length > 2 then args ++ [("description", JVal.str (parts.getD 2 ""))] else args
        let args := if parts.length > 3 then
            args ++ [("private", JVal.bool (["true", "1", "yes"].contains (pyLower (parts.getD 3 ""))))]
          else args
        .ok (some ("create_repository", args))
    else if cmd = "fork_repository" then
      if parts.length < 2 then .ok none
      else .ok (some ("fork_repository", [("repo", .str (parts.getD 1 ""))]))
    else if cmd = "list_issues" then
      if parts.length < 2 then .ok none
      else
        let args := [("repo", JVal.str (parts.getD 1 ""))]
        let args := if parts.length > 2 then args ++ [("state", JVal.str (parts.getD 2 ""))] else args
        let args := if parts.length > 3 then args ++ [("labels", JVal.str (parts.getD 3 ""))] else args
        .ok (some ("list_issues", args))
    else if cmd = "create_issue" then
      if parts.length < 3 then .ok none
      else
        let args := [("repo", JVal.str (parts.getD 1 "")), ("title", JVal.str (parts.getD 2 ""))]
        let args := if parts.length > 3 then args ++ [("body", JVal.str (parts.getD 3 ""))] else args
        .ok (some ("create_issue", args))
    else if cmd = "update_issue" then
      if parts.length < 3 then .ok none
      else
        match pyInt (parts.getD 2 "") with
        | .error e => .error e
        | .ok n =>
          let args := [("repo", JVal.str (parts.getD 1 "")), ("issue_number", JVal.num n)]
          let args := if parts.length > 3 then args ++ [("title", JVal.str (parts.getD 3 ""))] else args
          let args := if parts.length > 4 then args ++ [("body", JVal.str (parts.getD 4 ""))] else args
          let args := if parts.length > 5 then args ++ [("state", JVal.str (parts.getD 5 ""))] else args
          .ok (some ("update_issue", args))
    else if cmd = "list_pull_requests" then
      if parts.length < 2 then .ok none
      else
        let args := [("repo", JVal.str (parts.getD 1 ""))]
        let args := if parts.length > 2 then args ++ [("state", JVal.str (parts.getD 2 ""))] else args
        .ok (some ("list_pull_requests", args))
    else if cmd = "create_pull_request" then
      if parts.length < 5 then .ok none
      else
        let args := [("repo", JVal.str (parts.getD 1 "")), ("title", JVal.str (parts.getD 2 "")),
                     ("head", JVal.str (parts.getD 3 "")), ("base", JVal.str (parts.getD 4 ""))]
        let args := if parts.length > 5 then args ++ [("body", JVal.str (parts.getD 5 ""))] else args
        .ok (some ("create_pull_request", args))
    else if cmd = "get_file_contents" then
      if parts.length < 3 then .ok none
      else
        let args := [("repo", JVal.str (parts.getD 1 "")), ("path", JVal.str (parts.getD 2 ""))]
        let args := if parts.length > 3 then args ++ [("branch", JVal.str (parts.getD 3 ""))] else args
        .ok (some ("get_file_contents", args))
    else if cmd = "create_or_update_file" then
      if parts.length < 6 then .ok none
      else
        let args := [("repo", JVal.str (parts.getD 1 "")), ("path", JVal.str (parts.getD 2 "")),
                     ("content", JVal.str (parts.getD 3 "")), ("message", JVal.str (parts.getD 4 "")),
                     ("branch", JVal.str (parts.getD 5 ""))]
        let args := if parts.length > 6 then args ++ [("sha", JVal.str (parts.getD 6 ""))] else args
        .ok (some ("create_or_update_file", args))
    else if cmd = "list_branches" then
      if parts.length < 2 then .ok none
      else .ok (some ("list_branches", [("repo", .str (parts.getD 1 ""))]))
    else if cmd = "create_branch" then
      if parts.length < 3 then .ok none
      else
        let args := [("repo", JVal.str (parts.getD 1 "")), ("branch", JVal.str (parts.getD 2 ""))]
        let args := if parts.length > 3 then args ++ [("from_branch", JVal.str (parts.getD 3 ""))] else args
        .ok (some ("create_branch", args))
    else if cmd = "list_commits" then
      if parts.length < 2 then .ok none
      else
        let args := [("repo", JVal.str (parts.getD 1 ""))]
        let args := if parts.length > 2 then args ++ [("branch", JVal.str (parts.getD 2 ""))] else args
        .ok (some ("list_commits", args))
    else if cmd = "search_code" then
      if parts.length < 2 then .ok none
      else .ok (some ("search_code", [("query", .str (parts.getD 1 ""))]))
    else if cmd = "list_releases" then
      if parts.length < 2 then .ok none
      else .ok (some ("list_releases", [("repo", .str (parts.getD 1 ""))]))
    else if cmd = "get_user_info" then
      if parts.length < 2 then .ok none
      else .ok (some ("get_user_info", [("username", .str (parts.getD 1 ""))]))
    else .ok none

/-! ## Session orchestrator (client side) -/

/-- The attributes of `result.root` the client inspects (each `Option`
models `hasattr`); content items are modelled by their extracted text. -/
structure RootPart where
  content : Option (List String)
  error : Option String

/-- The protocol envelope returned by `session.send_request`. -/
structure Envelope where
  root : Option RootPart

/-- The final value `run_github_agent` hands its caller: an error record
(optionally with a help line) or a success record with one datum or a list
with its count. -/
inductive AgentResp where
  | err (msg : String) (help : Option String)
  | one (data : String)
  | many (data : List String) (count : Nat)

/-- The content loop of `run_github_agent`: skip empty texts, fail the whole
call on the first text containing the `❌` marker (returning it with every
`"❌ "` removed), then classify the collected results as empty, single or
multiple. -/
def extractResults : List String → List String → AgentResp
  | [], acc =>
    match acc with
    | [] => .err "No data returned" none
    | [r] => .one r
    | rs => .many rs rs.length
  | t :: rest, acc =>
    if t ≠ "" then
      if pyInStr "❌" t then .err (pyReplaceMarker t) none
      else extractResults rest (acc ++ [t])
    else extractResults rest acc

/-- Envelope unwrapping of `run_github_agent`: missing `root` or `content`
attributes and empty content are distinct protocol errors; otherwise the
content loop decides. -/
def unwrapEnvelope (env : Envelope) : AgentResp :=
  match env.root with
  | none => .err "Invalid response format: missing root" none
  | some root =>
    match root.content with
    | none =>
      match root.error with
      | some e => .err e none
      | none => .err "Invalid response format: missing content" none
    | some content =>
      if content.isEmpty then .err "No results received from server" none
      else extractResults content []

/-- The fixed help text accompanying an invalid-command error. -/
def commandHelp : String :=
  "Use format: <command> <args>. Example: list_repositories octocat"

/-- `run_github_agent`: reject blank input, parse the command (this step is
outside the `try:` block, so parser exceptions propagate to the caller),
reject the "no command" signal, then send the one request and unwrap the
envelope the server answers with. -/
def run_github_agent (query : String) (env : Envelope) : Except PyExn AgentResp :=
  if pyStrip query = "" then .ok (.err "Empty query" none)
  else
    match parseCommandTokens (tokenize query) with
    | .error e => .error e
    | .ok none => .ok (.err ("Invalid command format: " ++ query) (some commandHelp))
    | .ok (some (toolName, arguments)) =>
      if toolName = "" ∨ arguments.isEmpty then
        .ok (.err ("Invalid command format: " ++ query) (some commandHelp))
      else .ok (unwrapEnvelope env)

/-! ## C3: the repository-reference splitter -/

theorem splitChar_ne_nil (c : Char) (l : List Char) : splitChar c l ≠ [] := by
  induction l with
  | nil => simp [splitChar]
  | cons x xs ih =>
    by_cases hx : x = c
    · simp [splitChar, hx]
    · simp only [splitChar, if_neg hx]
      cases h : splitChar c xs with
      | nil => exact absurd h ih
      | cons ys rest => simp

theorem splitChar_count (c : Char) (l : List Char) :
    (splitChar c l).length = l.count c + 1 := by
  induction l with
  | nil => simp [splitChar]
  | cons x xs ih =>
    by_cases hx : x = c
    · subst hx
      simp [splitChar, ih, List.count_cons]
    · simp only [splitChar, if_neg hx]
      cases h : splitChar c xs with
      | nil => exact absurd h (splitChar_ne_nil c xs)
      | cons ys rest =>
        rw [h] at ih
        simp only [List.length_cons] at ih ⊢
        rw [List.count_cons]
        simp [hx, Ne.symm hx, ih]

theorem splitChar_no_sep (c : Char) (l : List Char) (h : c ∉ l) : splitChar c l = [l] := by
  induction l with
  | nil => simp [splitChar]
  | cons x xs ih =>
    have hx : x ≠ c := fun hxc => h (hxc ▸ List.mem_cons_self x xs)
    have hxs : c ∉ xs := fun hm => h (List.mem_cons_of_mem _ hm)
    simp only [splitChar, if_neg hx, ih hxs]

theorem splitChar_split_at (c : Char) (a b : List Char) (ha : c ∉ a) :
    splitChar c (a ++ c :: b) = a :: splitChar c b := by
  induction a with
  | nil => simp [splitChar]
  | cons x xs ih =>
    have hx : x ≠ c := fun hxc => ha (hxc ▸ List.mem_cons_self x xs)
    have hxs : c ∉ xs := fun hm => ha (List.mem_cons_of_mem _ hm)
    simp only [List.cons_append, splitChar, if_neg hx, List.append_eq, ih hxs]

/-- C3 counterexample: `"/x"` contains exactly one `/`, yet
`_parse_repo_string` returns an **empty** owner (`""`), refuting the claim
that one slash always yields a non-empty owner and name. -/
theorem c3_single_slash_empty_owner_counterexample :
    ("/x".data.count '/' = 1) ∧ parseRepoString "/x" = (some "", some "x") := by
  constructor
  · decide
  · rfl

/-- C3 (amended): an empty string gives `(None, None)`; a string with
exactly one `/` is split at that slash into owner and name, either of which
may be the empty string; a non-empty string whose slash count is not one
gives `(None, original_string)`. -/
theorem c3_parse_repo_string_amended (s : String) :
    (s = "" → parseRepoString s = (none, none)) ∧
    (∀ a b : List Char, s.data = a ++ '/' :: b → '/' ∉ a → '/' ∉ b →
      parseRepoString s = (some (String.mk a), some (String.mk b))) ∧
    (s ≠ "" → s.data.count '/' ≠ 1 → parseRepoString s = (none, some s)) := by
  refine ⟨fun h => by simp [parseRepoString, h], ?_, ?_⟩
  · intro a b hdecomp ha hb
    have hne : s ≠ "" := by
      intro h
      rw [h] at hdecomp
      exact absurd hdecomp (by simp)
    rw [parseRepoString, if_neg hne, hdecomp, splitChar_split_at '/' a b ha,
      splitChar_no_sep '/' b hb]
    simp
  · intro hne hcount
    have hlen : (splitChar '/' s.data).length ≠ 2 := by
      rw [splitChar_count]
      omega
    rw [parseRepoString, if_neg hne]
    rcases h : (splitChar '/' s.data).map String.mk with _ | ⟨x, _ | ⟨y, _ | ⟨z, rest⟩⟩⟩
    · simp
    · simp
    · exfalso
      apply hlen
      have := congrArg List.length h
      simpa using this
    · simp

/-- Witness for the amended C3 at `"octo/hello"`. -/
theorem c3_parse_repo_string_amended_witness :
    parseRepoString "octo/hello" = (some "octo", some "hello") :=
  (c3_parse_repo_string_amended "octo/hello").2.1
    ['o', 'c', 't', 'o'] ['h', 'e', 'l', 'l', 'o'] (by decide) (by decide) (by decide)

/-! ## C9: the argument normalizer -/

/-- C9: `_extract_arguments` returns the innermost mapping: a missing or
empty argument value yields the empty mapping (never a missing-value
fault), a mapping wrapped one level deep under an `"arguments"` key yields
the inner mapping, and an unwrapped mapping is returned unchanged. -/
theorem c9_extract_arguments_normalizes (m inner : List (String × JVal)) :
    extractArguments none = .obj [] ∧
    extractArguments (some []) = .obj [] ∧
    (m ≠ [] → List.lookup "arguments" m = some (.obj inner) →
      extractArguments (some m) = .obj inner) ∧
    (m ≠ [] → List.lookup "arguments" m = none → extractArguments (some m) = .obj m) := by
  have hempty : ∀ (l : List (String × JVal)), l ≠ [] → l.isEmpty = false := by
    intro l hl
    cases l with
    | nil => exact absurd rfl hl
    | cons a as => rfl
  refine ⟨rfl, rfl, ?_, ?_⟩
  · intro hne hlk
    simp [extractArguments, hempty m hne, hlk]
  · intro hne hlk
    simp [extractArguments, hempty m hne, hlk]

/-- Witness for C9: a one-level-wrapped mapping is unwrapped to the inner
mapping. -/
theorem c9_extract_arguments_normalizes_witness :
    extractArguments (some [("arguments", .obj [("username", .str "octocat")])]) =
      .obj [("username", .str "octocat")] :=
  (c9_extract_arguments_normalizes
    [("arguments", .obj [("username", .str "octocat")])]
    [("username", .str "octocat")]).2.2.1 (List.cons_ne_nil _ _) rfl

/-! ## C6: dispatch of unknown tool names -/

/-- C6: dispatching a tool name outside the registry returns exactly one
error segment naming that tool — a value, never an exception — with no
network activity, for all token and argument values. -/
theorem c6_unknown_tool_single_error (token : Option String) (name : String)
    (arguments : Option (List (String × JVal))) (net : Nat → HttpResponse)
    (h : name ∉ registeredTools) :
    handle_tool_call token name arguments net =
      (.ok ["❌ Unknown tool: " ++ name], []) := by
  simp only [registeredTools, List.mem_cons, List.not_mem_nil, or_false, not_or] at h
  obtain ⟨h1, h2, h3, h4, h5, h6, h7, h8, h9, h10, h11, h12, h13, h14, h15, h16,
    h17, h18⟩ := h
  simp [handle_tool_call, getHandler, h1, h2, h3, h4, h5, h6, h7, h8, h9, h10,
    h11, h12, h13, h14, h15, h16, h17, h18]

/-- Witness for C6 at the unregistered name `delete_repository`. -/
theorem c6_unknown_tool_single_error_witness :
    handle_tool_call none "delete_repository" none (fun _ => ⟨200, .null⟩) =
      (.ok ["❌ Unknown tool: delete_repository"], []) :=
  c6_unknown_tool_single_error none "delete_repository" none _ (by decide)

/-! ## C7: minimum token counts of the command parser -/

/-- The command families of `parse_command` with their fixed minimum token
counts (the `len(parts) < n` guards of the source). -/
def commandMinTokens : List (String × Nat) :=
  [("list_repositories", 2), ("get_repo_details", 2), ("search_repositories", 2),
   ("create_repository", 2), ("fork_repository", 2), ("list_issues", 2),
   ("create_issue", 3), ("update_issue", 3), ("list_pull_requests", 2),
   ("create_pull_request", 5), ("get_file_contents", 3), ("create_or_update_file", 6),
   ("list_branches", 2), ("create_branch", 3), ("list_commits", 2),
   ("search_code", 2), ("list_releases", 2), ("get_user_info", 2)]

/-- C7: for every recognized command word, an input with fewer tokens than
that command's fixed minimum parses to the "no command" signal `none` —
never a partial argument mapping and never an exception. -/
theorem c7_short_command_no_partial (cmd : String) (n : Nat) (p : String)
    (rest : List String) (hmem : (cmd, n) ∈ commandMinTokens) (hp : pyLower p = cmd)
    (hlen : (p :: rest).length < n) :
    parseCommandTokens (p :: rest) = .ok none := by
  fin_cases hmem
  all_goals simp only [List.length_cons] at hlen
  all_goals simp [parseCommandTokens, hp]
  all_goals
    first
    | exact List.eq_nil_of_length_eq_zero (by omega)
    | omega

/-- Witness for C7: a two-token `update_issue` line (minimum three) parses
to `none`. -/
theorem c7_short_command_no_partial_witness :
    parseCommandTokens ["update_issue", "octocat/hello"] = .ok none :=
  c7_short_command_no_partial "update_issue" 3 "update_issue" ["octocat/hello"]
    (by decide) (by decide) (by decide)

/-! ## C4: the credential gate of the mutating tools -/

/-- The seven mutating tools; each checks the credential before touching its
arguments or the network. -/
def mutatingTools : List String :=
  ["create_repository", "fork_repository", "create_issue", "update_issue",
   "create_pull_request", "create_or_update_file", "create_branch"]

/-- C4: with no token configured (unset or empty), every mutating tool
returns the fixed credential-required text and issues zero outbound HTTP
calls, for all argument values. -/
theorem c4_mutating_requires_token (token : Option String) (name : String)
    (arguments : Option (List (String × JVal))) (net : Nat → HttpResponse)
    (hmut : name ∈ mutatingTools) (htok : tokenTruthy token = false) :
    handle_tool_call token name arguments net =
      (.ok ["❌ GitHub token required for this operation"], []) := by
  simp only [mutatingTools, List.mem_cons, List.not_mem_nil, or_false] at hmut
  rcases hmut with rfl | rfl | rfl | rfl | rfl | rfl | rfl
  all_goals
    simp [handle_tool_call, getHandler, create_repository, fork_repository,
      create_issue, update_issue, create_pull_request, create_or_update_file,
      create_branch, htok]

/-- Witness for C4: `create_branch` without a token, with well-formed
arguments and a live oracle, still returns the credential error and no
requests. -/
theorem c4_mutating_requires_token_witness :
    handle_tool_call none "create_branch"
      (some [("repo", .str "octocat/hello"), ("branch", .str "feat")])
      (fun _ => ⟨200, .null⟩) =
      (.ok ["❌ GitHub token required for this operation"], []) :=
  c4_mutating_requires_token none "create_branch"
    (some [("repo", .str "octocat/hello"), ("branch", .str "feat")])
    (fun _ => ⟨200, .null⟩) (by decide) rfl

/-! ## C1: the unguarded integer conversion of the client -/

/-- C1 (code bug in the source): the `int(parts[2])` conversion of the
`update_issue` branch runs inside `parse_command`, which `run_github_agent`
calls **outside** its `try:` block; a non-integer issue-number token
therefore propagates a `ValueError` to the caller instead of the documented
error dictionary — whatever the server would have answered, since the
exception fires before any session is opened. -/
theorem c1_nonint_issue_number_raises (env : Envelope) :
    run_github_agent "update_issue octocat/hello abc" env =
      .error (.valueError "invalid literal for int() with base 10: 'abc'") := rfl

/-! ## C10: the error-marker channel of the client -/

theorem pyInStr_marker_ne_empty (t : String) (h : pyInStr "❌" t = true) : t ≠ "" := by
  intro he
  rw [he] at h
  exact absurd h (by decide)

theorem extractResults_marker (content : List String) (t : String)
    (hfind : content.find? (fun s => pyInStr "❌" s) = some t) :
    ∀ acc, extractResults content acc = .err (pyReplaceMarker t) none := by
  induction content with
  | nil => simp at hfind
  | cons s rest ih =>
    intro acc
    by_cases hm : pyInStr "❌" s = true
    · rw [List.find?_cons_of_pos _ hm] at hfind
      injection hfind with ht
      subst ht
      have hne : s ≠ "" := pyInStr_marker_ne_empty s hm
      simp [extractResults, hne, hm]
    · rw [List.find?_cons_of_neg _ (by simpa using hm)] at hfind
      by_cases hs : s = ""
      · subst hs
        simpa [extractResults] using ih hfind acc
      · simpa [extractResults, hs, hm] using ih hfind (acc ++ [s])

/-- C10: in the client's response unwrapping, the first content text that
contains the `❌` marker anywhere — even a success payload whose data
happens to contain it — turns the whole call into an error result whose
message is that text with every `"❌ "` (marker plus trailing space)
removed; a marker not followed by a space therefore survives in the
returned error string. -/
theorem c10_marker_poisons_response (root : RootPart) (content : List String)
    (t : String) (hc : root.content = some content)
    (hfind : content.find? (fun s => pyInStr "❌" s) = some t) :
    unwrapEnvelope ⟨some root⟩ = .err (pyReplaceMarker t) none := by
  have hne : content ≠ [] := by
    intro h
    rw [h] at hfind
    simp at hfind
  have hemp : content.isEmpty = false := by
    cases content with
    | nil => exact absurd rfl hne
    | cons a as => rfl
  simp only [unwrapEnvelope, hc, hemp, Bool.false_eq_true, if_false]
  exact extractResults_marker content t hfind []

/-- Witness for C10: a repository-listing payload that merely mentions the
marker is converted into an error; only the marker-plus-space occurrence is
removed, the bare marker survives. -/
theorem c10_marker_poisons_response_witness :
    unwrapEnvelope ⟨some ⟨some ["octocat/Hello (public) - ⭐ 3 - see ❌note and ❌ tail"],
        none⟩⟩ = .err "octocat/Hello (public) - ⭐ 3 - see ❌note and tail" none ∧
      pyInStr "❌" "octocat/Hello (public) - ⭐ 3 - see ❌note and tail" = true :=
  ⟨c10_marker_poisons_response
      ⟨some ["octocat/Hello (public) - ⭐ 3 - see ❌note and ❌ tail"], none⟩
      ["octocat/Hello (public) - ⭐ 3 - see ❌note and ❌ tail"]
      "octocat/Hello (public) - ⭐ 3 - see ❌note and ❌ tail" rfl (by decide),
    by decide⟩

/-! ## C5: the two-step branch creation -/

theorem tryExcept_statusError (resp : HttpResponse) :
    ∃ msg, tryExcept (statusErrorBody resp) = ["❌ " ++ msg] := by
  rcases hb : resp.body with _ | b | n | s | xs | fs <;>
    simp [tryExcept, statusErrorBody, pyGetD, pyGet, hb, Except.map]

/-- C5: `create_branch` issues at most two outbound calls; when two are
issued they are, in order, the source-branch reference lookup and the
reference creation carrying exactly the commit SHA extracted from the first
response (whose status was 200); whenever the first call answers non-200,
the second is never issued and the single returned segment is a `❌` error
text. -/
theorem c5_create_branch_two_step (token : Option String) (args : JVal)
    (net : Nat → HttpResponse) (out : Except PyExn (List String))
    (trace : List Request) (h : create_branch token args net = (out, trace)) :
    trace.length ≤ 2 ∧
    (trace.length = 2 →
      ∃ o r fb b sha, trace = [refLookupRequest o r fb, refCreateRequest o r b sha] ∧
        (net 0).status = 200 ∧ pyIndex2 (net 0).body "object" "sha" = .ok sha) ∧
    ((net 0).status ≠ 200 →
      trace.length ≤ 1 ∧ (trace.length = 1 → ∃ msg, out = .ok ["❌ " ++ msg])) := by
  simp only [create_branch] at h
  split at h
  · cases h; simp
  split at h
  case _ m =>
    split at h
    case _ e heq => cases h; simp
    case _ pr heq =>
      split at h
      · cases h; simp
      split at h
      · cases h; simp
      split at h
      case isTrue hst =>
        cases h
        refine ⟨by simp, by simp, fun _ => ⟨by simp, fun _ => ?_⟩⟩
        obtain ⟨msg, hmsg⟩ := tryExcept_statusError (net 0)
        exact ⟨msg, by rw [hmsg]⟩
      case isFalse hst =>
        split at h
        case _ e heq2 =>
          cases h
          refine ⟨by simp, by simp, fun hne => absurd (by omega) hst⟩
        case _ sha heq2 =>
          have h200 : (net 0).status = 200 := by omega
          split at h <;> cases h <;>
            exact ⟨by simp, fun _ => ⟨_, _, _, _, sha, rfl, h200, heq2⟩,
              fun hne => absurd h200 hne⟩
  case _ other =>
    simp only [argsNotDict] at h
    cases h
    simp

/-- Witness for C5: a successful two-call run — lookup of `main`, then
creation of `feat` from the SHA the lookup answered. -/
theorem c5_create_branch_two_step_witness :
    ((create_branch (some "t")
        (.obj [("repo", .str "me/proj"), ("branch", .str "feat")])
        (fun i => if i = 0 then ⟨200, .obj [("object", .obj [("sha", .str "abc123")])]⟩
          else ⟨201, .null⟩)).2).length ≤ 2 :=
  (c5_create_branch_two_step (some "t")
    (.obj [("repo", .str "me/proj"), ("branch", .str "feat")])
    (fun i => if i = 0 then ⟨200, .obj [("object", .obj [("sha", .str "abc123")])]⟩
      else ⟨201, .null⟩)
    _ _ rfl).1

/-! ## C2: empty listings -/

/-- C2 counterexample: a 2xx-but-not-200 status (204 No Content) with zero
items takes the error path of `list_repositories` — the handler returns a
single `❌` error segment, not the nothing-found text the claim requires
for every 2xx status. -/
theorem c2_listing_2xx_counterexample :
    (list_repositories none (.obj [("username", .str "octocat")])
        (fun _ => ⟨204, .arr []⟩)).1 =
      .ok ["❌ 'list' object has no attribute 'get'"] ∧
    "❌ 'list' object has no attribute 'get'" ≠ "No repositories found" :=
  ⟨rfl, by decide⟩

/-- C2 (amended): for every listing tool, a **200** response with zero
items yields exactly one non-empty text segment reporting that nothing was
found — the fixed `No … found` message for the seven tools that check for
emptiness, and the `Found 0 repositories (showing 0):` header for
`search_repositories`, which has no such check; statuses other than 200
(other 2xx codes included) take the error path instead. -/
theorem c2_empty_listing_single_message :
    (∀ (tok : Option String) (m : List (String × JVal)) (u : JVal)
        (net : Nat → HttpResponse),
      argGet m "username" = some u → u.truthy = true → net 0 = ⟨200, .arr []⟩ →
      (list_repositories tok (.obj m) net).1 = .ok ["No repositories found"]) ∧
    (∀ (tok : Option String) (m : List (String × JVal)) (o r : String)
        (net : Nat → HttpResponse),
      parseRepoJ (argGet m "repo") = .ok (some o, some r) → o ≠ "" → r ≠ "" →
      net 0 = ⟨200, .arr []⟩ →
      (list_issues tok (.obj m) net).1 = .ok ["No issues found"]) ∧
    (∀ (tok : Option String) (m : List (String × JVal)) (o r : String)
        (net : Nat → HttpResponse),
      parseRepoJ (argGet m "repo") = .ok (some o, some r) → o ≠ "" → r ≠ "" →
      net 0 = ⟨200, .arr []⟩ →
      (list_pull_requests tok (.obj m) net).1 = .ok ["No pull requests found"]) ∧
    (∀ (tok : Option String) (m : List (String × JVal)) (o r : String)
        (net : Nat → HttpResponse),
      parseRepoJ (argGet m "repo") = .ok (some o, some r) → o ≠ "" → r ≠ "" →
      net 0 = ⟨200, .arr []⟩ →
      (list_branches tok (.obj m) net).1 = .ok ["No branches found"]) ∧
    (∀ (tok : Option String) (m : List (String × JVal)) (o r : String)
        (net : Nat → HttpResponse),
      parseRepoJ (argGet m "repo") = .ok (some o, some r) → o ≠ "" → r ≠ "" →
      net 0 = ⟨200, .arr []⟩ →
      (list_commits tok (.obj m) net).1 = .ok ["No commits found"]) ∧
    (∀ (tok : Option String) (m : List (String × JVal)) (o r : String)
        (net : Nat → HttpResponse),
      parseRepoJ (argGet m "repo") = .ok (some o, some r) → o ≠ "" → r ≠ "" →
      net 0 = ⟨200, .arr []⟩ →
      (list_releases tok (.obj m) net).1 = .ok ["No releases found"]) ∧
    (∀ (tok : Option String) (m : List (String × JVal)) (q b : JVal)
        (net : Nat → HttpResponse),
      argGet m "query" = some q → q.truthy = true → net 0 = ⟨200, b⟩ →
      pyGetD b "items" (.arr []) = .ok (.arr []) →
      (search_code tok (.obj m) net).1 = .ok ["No code results found"]) ∧
    (∀ (tok : Option String) (m : List (String × JVal)) (q b : JVal)
        (net : Nat → HttpResponse),
      argGet m "query" = some q → q.truthy = true → net 0 = ⟨200, b⟩ →
      pyGetD b "items" (.arr []) = .ok (.arr []) →
      pyGetD b "total_count" (.num 0) = .ok (.num 0) →
      (search_repositories tok (.obj m) net).1 =
        .ok ["Found 0 repositories (showing 0):\n\n"]) := by
  refine ⟨?_, ?_, ?_, ?_, ?_, ?_, ?_, ?_⟩
  · intro tok m u net hu hut hnet
    simp only [list_repositories, hu, jOptTruthy, hut, Bool.not_true, Bool.false_eq_true,
      if_false, hnet]
    rfl
  · intro tok m o r net hrepo ho hr hnet
    simp only [list_issues, hrepo]
    rw [if_neg (by simp [strOptTruthy, ho, hr]), hnet]
    rfl
  · intro tok m o r net hrepo ho hr hnet
    simp only [list_pull_requests, hrepo]
    rw [if_neg (by simp [strOptTruthy, ho, hr]), hnet]
    rfl
  · intro tok m o r net hrepo ho hr hnet
    simp only [list_branches, hrepo]
    rw [if_neg (by simp [strOptTruthy, ho, hr]), hnet]
    rfl
  · intro tok m o r net hrepo ho hr hnet
    simp only [list_commits, hrepo]
    rw [if_neg (by simp [strOptTruthy, ho, hr]), hnet]
    rfl
  · intro tok m o r net hrepo ho hr hnet
    simp only [list_releases, hrepo]
    rw [if_neg (by simp [strOptTruthy, ho, hr]), hnet]
    rfl
  · intro tok m q b net hq hqt hnet hitems
    have hbody : searchCodeBody ⟨200, b⟩ = .ok ["No code results found"] := by
      simp only [searchCodeBody, hitems]
      rfl
    simp only [search_code, hq, jOptTruthy, hqt, Bool.not_true, Bool.false_eq_true,
      if_false, hnet, hbody]
    rfl
  · intro tok m q b net hq hqt hnet hitems htotal
    have hbody : searchRepositoriesBody ⟨200, b⟩ =
        .ok ["Found 0 repositories (showing 0):\n\n"] := by
      simp only [searchRepositoriesBody, hitems, htotal]
      rfl
    simp only [search_repositories, hq, jOptTruthy, hqt, Bool.not_true,
      Bool.false_eq_true, if_false, hnet, hbody]
    rfl

/-- Witness for the amended C2: `list_repositories` on an empty 200
listing. -/
theorem c2_empty_listing_single_message_witness :
    (list_repositories none (.obj [("username", .str "octocat")])
      (fun _ => ⟨200, .arr []⟩)).1 = .ok ["No repositories found"] :=
  c2_empty_listing_single_message.1 none [("username", .str "octocat")]
    (.str "octocat") (fun _ => ⟨200, .arr []⟩) rfl rfl rfl

/-! ## C8: the pull-request filter of the issue listing -/

/-- Whether an issue object carries the `pull_request` back-reference. -/
def hasPullKey : JVal → Bool
  | .obj fs => (List.lookup "pull_request" fs).isSome
  | _ => false

theorem formatIssuesLoop_eq_filter (issues : List JVal)
    (hobj : ∀ v ∈ issues, ∃ fs, v = .obj fs) :
    formatIssuesLoop issues =
      exceptMap formatIssueEntry (issues.filter fun v => !(hasPullKey v)) := by
  induction issues with
  | nil => rfl
  | cons v rest ih =>
    obtain ⟨fs, rfl⟩ := hobj v (List.mem_cons_self v rest)
    have hrest := ih fun w hw => hobj w (List.mem_cons_of_mem _ hw)
    cases hk : (List.lookup "pull_request" fs).isSome with
    | true => simp [formatIssuesLoop, pyHasKey, hasPullKey, hk, hrest]
    | false => simp [formatIssuesLoop, pyHasKey, hasPullKey, hk, hrest, exceptMap]

/-- C8 counterexample: a 204 (2xx) response carrying one entry **without** a
`pull_request` field takes the error path — that entry is not included in
any formatted output, refuting the claim for 2xx statuses other than 200. -/
theorem c8_issue_2xx_counterexample :
    (list_issues none (.obj [("repo", .str "octocat/hello")])
        (fun _ => ⟨204, .arr [.obj [("number", .num 7), ("title", .str "Bug"),
          ("state", .str "open"), ("html_url", .str "u")]]⟩)).1 =
      .ok ["❌ 'list' object has no attribute 'get'"] ∧
    pyInStr "Bug" "❌ 'list' object has no attribute 'get'" = false :=
  ⟨rfl, by decide⟩

/-- C8 (amended): for every **200** response to `list_issues` whose entries
format successfully, the output is the join of the formatted entries of
exactly those issues without a `pull_request` back-reference, in order —
entries carrying the field are excluded and every entry without it is
included. -/
theorem c8_issue_listing_filters_pull_requests (tok : Option String)
    (m : List (String × JVal)) (o r : String) (net : Nat → HttpResponse)
    (issues : List JVal) (segs : List String)
    (hrepo : parseRepoJ (argGet m "repo") = .ok (some o, some r))
    (ho : o ≠ "") (hr : r ≠ "") (hnet : net 0 = ⟨200, .arr issues⟩)
    (hne : issues ≠ []) (hobj : ∀ v ∈ issues, ∃ fs, v = .obj fs)
    (hfmt : exceptMap formatIssueEntry (issues.filter fun v => !(hasPullKey v)) =
      .ok segs) :
    (list_issues tok (.obj m) net).1 =
      .ok [String.intercalate "\n\n" segs] := by
  have hemp : issues.isEmpty = false := by
    cases issues with
    | nil => exact absurd rfl hne
    | cons a as => rfl
  have hbody : listIssuesBody ⟨200, .arr issues⟩ =
      .ok [String.intercalate "\n\n" segs] := by
    rw [listIssuesBody]
    rw [if_neg (by simp)]
    rw [if_neg (by simp [JVal.truthy, hemp])]
    simp only [formatIssuesLoop_eq_filter issues hobj, hfmt, Except.map]
  simp only [list_issues, hrepo]
  rw [if_neg (by simp [strOptTruthy, ho, hr]), hnet, hbody]
  rfl

/-- Witness for the amended C8: one plain issue and one pull-request-backed
entry; only the former appears in the output. -/
theorem c8_issue_listing_filters_pull_requests_witness :
    (list_issues none (.obj [("repo", .str "octocat/hello")])
      (fun _ => ⟨200, .arr [
        .obj [("number", .num 1), ("title", .str "Bug"), ("state", .str "open"),
              ("html_url", .str "u1")],
        .obj [("number", .num 2), ("title", .str "Feature"), ("state", .str "open"),
              ("html_url", .str "u2"), ("pull_request", .obj [])]]⟩)).1 =
      .ok ["#1 - Bug\n  State: open | Labels: None\n  URL: u1"] :=
  c8_issue_listing_filters_pull_requests none [("repo", .str "octocat/hello")]
    "octocat" "hello" _ _ ["#1 - Bug\n  State: open | Labels: None\n  URL: u1"]
    rfl (by decide) (by decide) rfl (List.cons_ne_nil _ _)
    (by
      intro v hv
      simp only [List.mem_cons, List.not_mem_nil, or_false] at hv
      rcases hv with rfl | rfl
      · exact ⟨_, rfl⟩
      · exact ⟨_, rfl⟩)
    rfl

end GitMCP
